import Mathlib

/-
Verification of the resource-watch synchronization engine in
src/aci-policy-controller/k8s/aci_policy_controller.py (class Controller).

The Python code is shallowly embedded: parsed JSON documents become the
inductive type Json, Python exceptions become the enumeration PyExc,
dictionary indexing (which can raise KeyError / TypeError) becomes
Json.getItem returning Except, and the bounded event queue becomes an
explicit EventQueue value threaded through the functions.  Each Lean
definition is annotated with the source method and lines it embeds.
-/

namespace AciController

/-- A parsed JSON document, as produced by json.loads in the source.
Objects are association lists of string keys. -/
inductive Json where
  | null
  | str (s : String)
  | num (n : Int)
  | bool (b : Bool)
  | arr (elts : List Json)
  | obj (fields : List (String × Json))

mutual

/-- Boolean equality on Json values, matching Python `==` on parsed
JSON documents. -/
def Json.beq : Json → Json → Bool
  | .null, .null => true
  | .str a, .str b => a == b
  | .num a, .num b => a == b
  | .bool a, .bool b => a == b
  | .arr xs, .arr ys => Json.beqList xs ys
  | .obj xs, .obj ys => Json.beqObj xs ys
  | _, _ => false

/-- Elementwise equality of JSON arrays. -/
def Json.beqList : List Json → List Json → Bool
  | [], [] => true
  | x :: xs, y :: ys => Json.beq x y && Json.beqList xs ys
  | _, _ => false

/-- Fieldwise equality of JSON objects. -/
def Json.beqObj : List (String × Json) → List (String × Json) → Bool
  | [], [] => true
  | (k, v) :: xs, (l, w) :: ys => k == l && Json.beq v w && Json.beqObj xs ys
  | _, _ => false

end

instance : BEq Json := ⟨Json.beq⟩

/-- The Python exceptions that flow through the controller:
KeyError and TypeError from dictionary indexing, the requests transport
errors, the controller's own KubernetesApiError (source line 58),
queue.Full from the bounded event queue, and a catch-all for any other
Exception subclass. -/
inductive PyExc where
  | keyError
  | typeError
  | connectionError
  | chunkedEncodingError
  | httpError
  | kubernetesApiError
  | queueFull
  | otherExc
deriving DecidableEq

/-- Python subscript `d[k]` on a parsed JSON value: raises KeyError when
the key is absent from a dict, TypeError when the value is not a dict
(indexing a non-dict JSON value with a string key). -/
def Json.getItem (j : Json) (k : String) : Except PyExc Json :=
  match j with
  | .obj fields =>
    match fields.lookup k with
    | some v => .ok v
    | none => .error .keyError
  | _ => .error .typeError

/-- Python `d.get(k)` on a parsed JSON dict: returns None (here: none)
when the key is absent.  Only ever applied to values already known to be
dicts in the source. -/
def Json.dictGet (j : Json) (k : String) : Option Json :=
  match j with
  | .obj fields => fields.lookup k
  | _ => none

/-- Constant TYPE_ADDED. Modelled from the spec: the constants.k8s module
is not under src/; EventKind is one of {Added, Modified, Deleted, Error}
carried as the Kubernetes watch-event type strings. -/
def TYPE_ADDED : String := "ADDED"

/-- Constant TYPE_MODIFIED. Modelled from the spec (constants.k8s is not
under src/). -/
def TYPE_MODIFIED : String := "MODIFIED"

/-- Constant TYPE_DELETED. Modelled from the spec (constants.k8s is not
under src/). -/
def TYPE_DELETED : String := "DELETED"

/-- Constant TYPE_ERROR. Modelled from the spec (constants.k8s is not
under src/). -/
def TYPE_ERROR : String := "ERROR"

/-- An update placed on the event queue: the tuple
(event_type, resource_type, resource) described in Controller.read_updates
(source lines 274-282).  All three components are parsed JSON values. -/
abbrev Event := Json × Json × Json

/-- The bounded event queue queue.Queue(maxsize=MAX_QUEUE_SIZE) of
Controller.__init__ (source line 63): a capacity and the FIFO contents. -/
structure EventQueue where
  cap : Nat
  items : List Event

/-- queue.Queue.put(update, block=True, timeout=QUEUE_PUT_TIMEOUT)
(source lines 413-415 and 456-458): blocks until space is available or
the timeout elapses and then raises queue.Full.  The timing is abstracted:
a put against a queue that stays full for the whole timeout window raises
queue.Full, otherwise the event is appended at the back. -/
def EventQueue.put (q : EventQueue) (e : Event) : Except PyExc EventQueue :=
  if q.items.length < q.cap then .ok { q with items := q.items ++ [e] }
  else .error .queueFull

/-- The enqueue loop of Controller._sync_resources (source lines 453-458):
puts events one at a time, stopping at the first put that raises.  Returns
the queue as left at the raise point together with the raised exception,
if any. -/
def enqueue_all (q : EventQueue) : List Event → EventQueue × Option PyExc
  | [] => (q, none)
  | e :: es =>
    match q.put e with
    | .ok q' => enqueue_all q' es
    | .error ex => (q, some ex)

/-- The list response seen by Controller._sync_resources: the HTTP status
code and the parsed JSON body (resp.json()). -/
structure ListResponse where
  status_code : Nat
  body : Json

/-- Controller._sync_resources (source lines 423-462).  Raises
KubernetesApiError on a non-200 status; reads resp.json()["items"]
(KeyError / TypeError propagate for a malformed body; iterating a
non-array items value is modelled as a TypeError); reads the list cursor
via resp.json().get("metadata", {}).get("resourceVersion"); enqueues one
(TYPE_MODIFIED, resource_type, resource) update per item; and returns the
list cursor.  The queue is returned in all cases so that events enqueued
before a failure are retained, matching the shared queue in the source. -/
def sync_resources (resource_type : String) (resp : ListResponse)
    (q : EventQueue) : EventQueue × Except PyExc (Option Json) :=
  if resp.status_code ≠ 200 then (q, .error .kubernetesApiError)
  else
    match resp.body.getItem "items" with
    | .error e => (q, .error e)
    | .ok (.arr resources) =>
      let metadata := (resp.body.dictGet "metadata").getD (Json.obj [])
      let resource_version := metadata.dictGet "resourceVersion"
      match enqueue_all q
          (resources.map fun r => (Json.str TYPE_MODIFIED, Json.str resource_type, r)) with
      | (q', none) => (q', .ok resource_version)
      | (q', some e) => (q', .error e)
    | .ok _ => (q, .error .typeError)

/-- The handler functions of the registry, external collaborators per the
spec: invoked as handler(self, resource) and observed here only through
their exception behavior (the controller-state argument plays no role in
the dispatcher's control flow). -/
abbrev Handler := Json → Except PyExc Unit

/-- Controller._handlers (source line 122): the mapping from
(resource_type, event_type) keys to handler functions, populated once in
__init__ via add_handler. -/
abbrev Registry := List ((Json × Json) × Handler)

/-- Controller.add_handler (source lines 156-169): dict assignment
self._handlers[(resource_type, event_type)] = handler; newest binding
shadows any older one under lookup. -/
def add_handler (reg : Registry) (resource_type event_type : Json)
    (handler : Handler) : Registry :=
  ((resource_type, event_type), handler) :: reg

/-- Controller.get_handler (source lines 171-181): the dict lookup
self._handlers[(resource_type, event_type)], raising KeyError when the
pair has no registered handler. -/
def get_handler (reg : Registry) (resource_type event_type : Json) :
    Except PyExc Handler :=
  match reg.lookup (resource_type, event_type) with
  | some h => .ok h
  | none => .error .keyError

/-- Python expression resource["metadata"]["name"]
(source lines 317 and 408). -/
def nameOf (resource : Json) : Except PyExc Json :=
  match resource.getItem "metadata" with
  | .error e => .error e
  | .ok md => md.getItem "name"

/-- Python expression resource["metadata"]["resourceVersion"]
(source line 418). -/
def versionOf (resource : Json) : Except PyExc Json :=
  match resource.getItem "metadata" with
  | .error e => .error e
  | .ok md => md.getItem "resourceVersion"

/-- What Controller._process_update did with one event: invoked the
handler to completion, found no registered handler (warning logged, event
dropped), or caught a KeyError raised by the handler (resource serialized
into the log). -/
inductive ProcessOutcome where
  | handled
  | noHandler
  | invalidResource
deriving DecidableEq

/-- Controller._process_update (source lines 309-334).  Extracts
resource["metadata"]["name"] for the log key (a KeyError from a missing
identity field propagates to the caller); looks up the handler, mapping a
KeyError from the lookup to the logged-and-dropped branch; then invokes
the handler, catching exactly KeyError (logged with the resource
serialized) and letting every other exception propagate.  The namespace
extraction resource["metadata"].get("namespace") cannot raise once the
name lookup has succeeded and is used only for logging. -/
def process_update (reg : Registry)
    (event_type resource_type resource : Json) : Except PyExc ProcessOutcome :=
  match nameOf resource with
  | .error e => .error e
  | .ok _name =>
    match get_handler reg resource_type event_type with
    | .error .keyError => .ok .noHandler
    | .error e => .error e
    | .ok handler =>
      match handler resource with
      | .ok _ => .ok .handled
      | .error .keyError => .ok .invalidResource
      | .error e => .error e

/-- The dispatcher's record of one loop iteration: either the outcome of
_process_update, or the KeyError branch of read_updates itself (an invalid
update logged with its payload and dropped). -/
inductive StepResult where
  | processed (o : ProcessOutcome)
  | invalidUpdate
deriving DecidableEq

/-- One iteration of the Controller.read_updates loop body
(source lines 284-303): dequeue an update, process it, catching exactly
KeyError at this level; any other exception propagates out of the loop.
The unconditional task_done bookkeeping in the finally block has no
observable effect on the behaviors verified here. -/
def read_step (reg : Registry) (u : Event) : Except PyExc StepResult :=
  match process_update reg u.1 u.2.1 u.2.2 with
  | .ok o => .ok (.processed o)
  | .error .keyError => .ok .invalidUpdate
  | .error e => .error e

/-- Controller.read_updates (source lines 271-307) applied to a finite
prefix of the queue's contents: processes updates in FIFO order, stopping
with the raised exception at the first fatal (non-KeyError) failure, which
in the source propagates out of read_updates and kills the engine. -/
def read_updates (reg : Registry) : List Event → Except PyExc (List StepResult)
  | [] => .ok []
  | u :: rest =>
    match read_step reg u with
    | .error e => .error e
    | .ok r =>
      match read_updates reg rest with
      | .error e => .error e
      | .ok rs => .ok (r :: rs)

/-- The state carried by the watch loop of Controller._watch_resource:
the local resource_version variable and the shared event queue. -/
structure WatchState where
  version : Option Json
  q : EventQueue

/-- The body of the per-line loop in Controller._watch_resource
(source lines 386-421) for one non-empty line: parse (the line is given
already parsed), raise KubernetesApiError when parsed["type"] equals
TYPE_ERROR, extract event_type = parsed["type"], rebind resource_type to
parsed["object"]["kind"] (shadowing the session's parameter), read
resource["metadata"]["name"] for the log line, put the update on the
queue (queue.Full propagates), and only then advance resource_version to
resource["metadata"]["resourceVersion"].  Returns the state as left at
the raise point, so an enqueue followed by a failing cursor extraction
keeps the enqueued event. -/
def process_line (resource_type : String) (line : Json) (st : WatchState) :
    WatchState × Option PyExc :=
  match line.getItem "type" with
  | .error e => (st, some e)
  | .ok t =>
    if Json.beq t (Json.str TYPE_ERROR) then (st, some .kubernetesApiError)
    else
      match line.getItem "object" with
      | .error e => (st, some e)
      | .ok obj =>
        match obj.getItem "kind" with
        | .error e => (st, some e)
        | .ok k =>
          match nameOf obj with
          | .error e => (st, some e)
          | .ok _ =>
            match st.q.put (t, k, obj) with
            | .error e => (st, some e)
            | .ok q1 =>
              match versionOf obj with
              | .error e => ({ st with q := q1 }, some e)
              | .ok v => ({ version := some v, q := q1 }, none)

/-- The for-loop over response.iter_lines() in Controller._watch_resource
(source lines 386-421): processes the parsed non-empty lines in order,
stopping at the first raised exception.  Keep-alive blank lines are
filtered by the source before parsing and carry no information. -/
def run_lines (resource_type : String) (st : WatchState) :
    List Json → WatchState × Option PyExc
  | [] => (st, none)
  | l :: ls =>
    match process_line resource_type l st with
    | (st', some e) => (st', some e)
    | (st', none) => run_lines resource_type st' ls

/-- The environment's behavior for one streaming GET issued by
Controller._watch_resource: either _api_get raises (connection reset and
the like), or a response arrives with a status code and a stream that
yields the given parsed non-empty lines and then either ends cleanly
(tail = none) or raises mid-iteration (tail = some e; a json.loads
failure on a later line folds into this case). -/
inductive WatchAttempt where
  | connectFail (e : PyExc)
  | stream (status : Nat) (lines : List Json) (tail : Option PyExc)

/-- The externally visible control-plane calls of a watch session:
the full list GET of _sync_resources (which always passes
resource_version=None to _api_get, source line 433) and the streaming
watch GET of _watch_resource carrying the cursor it resumes from
(source lines 376-378). -/
inductive Action where
  | listCall (ver : Option Json)
  | watchOpen (ver : Option Json)

/-- True exactly for a watch-stream opening. -/
def Action.isWatchOpen : Action → Bool
  | .watchOpen _ => true
  | _ => false

/-- One iteration of the while-True loop inside Controller._watch_resource
(source lines 374-421), given the environment's behavior for its GET:
raise on connect failure, raise KubernetesApiError on a non-200 status,
then run the line loop; when the line iterator is exhausted without an
exception the iteration completes cleanly and the while loop continues. -/
def watch_attempt (resource_type : String) (ver : Option Json)
    (q : EventQueue) : WatchAttempt → WatchState × Option PyExc
  | .connectFail e => (⟨ver, q⟩, some e)
  | .stream status lines tail =>
    if status ≠ 200 then (⟨ver, q⟩, some .kubernetesApiError)
    else
      match run_lines resource_type ⟨ver, q⟩ lines with
      | (st, some e) => (st, some e)
      | (st, none) => (st, tail)

/-- Controller._watch_resource (source lines 367-421) run against a finite
script of stream attempts.  Each while-True iteration opens one watch
stream (emitting Action.watchOpen with the cursor passed to _api_get); a
raised exception ends the function with that exception; a cleanly ended
stream loops around and opens the next watch stream directly, with no
intervening list call, resuming from the current local resource_version.
An exhausted script (exception component none) is the model's fuel limit:
the source function only ever returns by raising. -/
def watch_resource (resource_type : String) (ver : Option Json)
    (q : EventQueue) : List WatchAttempt → List Action × WatchState × Option PyExc
  | [] => ([], ⟨ver, q⟩, none)
  | a :: as =>
    match watch_attempt resource_type ver q a with
    | (st, some e) => ([Action.watchOpen ver], st, some e)
    | (st, none) =>
      match watch_resource resource_type st.version st.q as with
      | (tr, st', exc) => (Action.watchOpen ver :: tr, st', exc)

/-- The environment's behavior for one iteration of the while-True loop of
Controller._manage_resource: the outcome of the list GET issued by
_sync_resources, then the script of watch stream attempts. -/
structure IterEnv where
  listResult : Except PyExc ListResponse
  attempts : List WatchAttempt

/-- The try-block of one Controller._manage_resource iteration
(source lines 343-348): resource_version = self._sync_resources(...),
then self._watch_resource(resource_type, resource_version).  The list GET
is always issued with resource_version=None (the cursor from any earlier
iteration is discarded), hence the Action.listCall none.  Returns the
emitted call trace, the queue as left behind, and the exception that
escaped the try-block, if any. -/
def manage_iteration (resource_type : String) (env : IterEnv)
    (q : EventQueue) : List Action × EventQueue × Option PyExc :=
  match env.listResult with
  | .error e => ([Action.listCall none], q, some e)
  | .ok resp =>
    match sync_resources resource_type resp q with
    | (q', .error e) => ([Action.listCall none], q', some e)
    | (q', .ok ver) =>
      match watch_resource resource_type ver q' env.attempts with
      | (tr, st, exc) => (Action.listCall none :: tr, st.q, exc)

/-- The except-clause chain of Controller._manage_resource
(source lines 349-360): ConnectionError / ChunkedEncodingError,
HTTPError, KubernetesApiError, queue.Full, and finally a catch-all
except Exception.  Every modelled exception is caught. -/
def manage_catches : PyExc → Bool
  | .connectionError => true
  | .chunkedEncodingError => true
  | .httpError => true
  | .kubernetesApiError => true
  | .queueFull => true
  | _ => true

/-- Controller._manage_resource (source lines 336-365) run against a
finite script of per-iteration environments: each iteration lists then
watches; a caught exception logs, sleeps one second (timing abstracted)
and loops back to a fresh full resync; an uncaught exception would end the
worker thread.  An iteration whose watch script ran out of fuel ends the
model run, since the source's _watch_resource never returns normally. -/
def manage_resource (resource_type : String) (q : EventQueue) :
    List IterEnv → List Action × EventQueue
  | [] => ([], q)
  | env :: rest =>
    match manage_iteration resource_type env q with
    | (tr, q', some e) =>
      if manage_catches e then
        (tr ++ (manage_resource resource_type q' rest).1,
         (manage_resource resource_type q' rest).2)
      else (tr, q')
    | (tr, q', none) => (tr, q')

/-- The property named by the spec's end-to-end scenario, on a call
trace: a new watch stream is never opened without an intervening list
call, i.e. no watch opening immediately follows another watch opening
(every trace element is either a list call or a watch opening). -/
def relists_between_watches : List Action → Bool
  | a :: b :: rest =>
    (!(a.isWatchOpen && b.isWatchOpen)) && relists_between_watches (b :: rest)
  | _ => true

/-- Python equality our_name == leader_name in Controller._is_leader
(source line 502): our_name is os.environ.get("HOSTNAME") (None when
unset), leader_name a parsed JSON value (a JSON null parses to None). -/
def pyEqName : Option String → Json → Bool
  | some s, .str t => s == t
  | none, .null => true
  | _, _ => false

/-- Controller._is_leader (source lines 489-502): GET the election URL
(any transport or JSON-decoding exception propagates), read
response["name"] (KeyError propagates), and compare with this instance's
identity. -/
def is_leader (ourName : Option String) (pollResult : Except PyExc Json) :
    Except PyExc Bool :=
  match pollResult with
  | .error e => .error e
  | .ok body =>
    match body.getItem "name" with
    | .error e => .error e
    | .ok leader => .ok (pyEqName ourName leader)

/-- What one poll of the leadership-watching loop does: continue to the
next poll after the one-second sleep, or terminate the whole process via
os._exit with the given code. -/
inductive PollOutcome where
  | continueLoop
  | exitProcess (code : Nat)
deriving DecidableEq

/-- One iteration of the while-True loop in Controller._watch_leadership
(source lines 244-252): if not self._is_leader() then os._exit(1); an
exception raised while polling is caught by the except Exception clause,
which also calls os._exit(1). -/
def watch_leadership_step (ourName : Option String)
    (pollResult : Except PyExc Json) : PollOutcome :=
  match is_leader ourName pollResult with
  | .ok true => .continueLoop
  | .ok false => .exitProcess 1
  | .error _ => .exitProcess 1

/-- The result of running the leadership-watching loop against a finite
script of poll results: the loop either called os._exit with a code, or
the script ran out while this instance was still leader at every poll
(model fuel; the source loop runs forever). -/
inductive LeaderLoopResult where
  | exited (code : Nat)
  | stillPolling
deriving DecidableEq

/-- Controller._watch_leadership (source lines 238-252) run against a
finite script of poll results, stopping at the first poll that exits. -/
def watch_leadership (ourName : Option String) :
    List (Except PyExc Json) → LeaderLoopResult
  | [] => .stillPolling
  | p :: ps =>
    match watch_leadership_step ourName p with
    | .exitProcess c => .exited c
    | .continueLoop => watch_leadership ourName ps

/-- The dispatcher side of Controller.run (source lines 189-206) at the
thread level: the single consumer thread is either blocked in
self._event_queue.get(block=True) or inside one synchronous
_process_update call for a dequeued event. -/
inductive DispPhase where
  | reading
  | handling (ev : Event)

/-- A thread-level state of the engine after start_workers
(source lines 254-269): the pending output of each Watch Session producer
thread, the FIFO contents of the shared event queue, and the phase of the
single dispatcher thread running read_updates.  The queue bound only
delays producers and is omitted: the step relation with an unbounded
queue allows every schedule of the bounded one. -/
structure DispatchSystem where
  producers : List (List Event)
  queue : List Event
  phase : DispPhase

/-- The observable scheduling events of the engine: producer i enqueues
an event (the put inside _watch_resource or _sync_resources), the
dispatcher dequeues an event and begins its handler invocation
(_process_update entered), or that handler invocation ends, by returning
or by raising. -/
inductive DLabel where
  | enqueue (i : Nat) (ev : Event)
  | handlerStart (ev : Event)
  | handlerEnd (ev : Event)

/-- The interleaving small-step relation of the engine's threads.  Any
producer with pending output may append its next event to the back of the
shared queue at any time; the dispatcher, when blocked in get with a
non-empty queue, dequeues the front event and enters its handler; a
running handler may end at any time.  The scheduler is unconstrained. -/
inductive DStep : DispatchSystem → DLabel → DispatchSystem → Prop where
  | produce (s : DispatchSystem) (i : Nat) (ev : Event) (pend : List Event)
      (h : s.producers.get? i = some (ev :: pend)) :
      DStep s (.enqueue i ev)
        { producers := s.producers.set i pend,
          queue := s.queue ++ [ev], phase := s.phase }
  | dequeueStart (s : DispatchSystem) (ev : Event) (q' : List Event)
      (hp : s.phase = .reading) (hq : s.queue = ev :: q') :
      DStep s (.handlerStart ev)
        { producers := s.producers, queue := q', phase := .handling ev }
  | handlerFinish (s : DispatchSystem) (ev : Event)
      (hp : s.phase = .handling ev) :
      DStep s (.handlerEnd ev)
        { producers := s.producers, queue := s.queue, phase := .reading }

/-- A finite execution of the engine: a sequence of scheduled steps with
its emitted label trace. -/
inductive DExec : DispatchSystem → List DLabel → DispatchSystem → Prop where
  | nil (s : DispatchSystem) : DExec s [] s
  | cons (s s' s'' : DispatchSystem) (l : DLabel) (ls : List DLabel)
      (hstep : DStep s l s') (hrest : DExec s' ls s'') : DExec s (l :: ls) s''

/-- Whether a handler invocation is in progress in the given phase. -/
def phaseBusy : DispPhase → Bool
  | .reading => false
  | .handling _ => true

/-- Serialization of handler invocations along a label trace, starting
with a handler running iff b: enqueues are ignored, a handler may start
only when no handler is running, and may end only when one is running.
A trace satisfying serializedFrom false never has two handler invocations
in progress at once, and handler invocation N+1 starts only after
invocation N has ended. -/
def serializedFrom : Bool → List DLabel → Bool
  | _, [] => true
  | b, .enqueue _ _ :: ls => serializedFrom b ls
  | b, .handlerStart _ :: ls => !b && serializedFrom true ls
  | b, .handlerEnd _ :: ls => b && serializedFrom false ls

/-- A resource document with identity and cursor fields, used as witness
input. -/
def wObj : Json :=
  Json.obj [("kind", Json.str "Pod"),
    ("metadata", Json.obj [("name", Json.str "a"),
                           ("resourceVersion", Json.str "5")])]

/-- A well-formed watch-stream line carrying wObj, used as witness
input. -/
def wLine : Json := Json.obj [("type", Json.str "ADDED"), ("object", wObj)]

/-- The update that processing wLine enqueues, used as witness input. -/
def wEvent : Event := (Json.str "ADDED", Json.str "Pod", wObj)

/-- A handler that returns normally, used as witness input. -/
def handlerOk : Handler := fun _ => .ok ()

/-- A handler that raises KeyError (a data-shape error), used as witness
input. -/
def handlerRaisesKeyError : Handler := fun _ => .error .keyError

/-- A handler that raises an exception other than KeyError, used as
witness input. -/
def handlerRaisesOther : Handler := fun _ => .error .otherExc

/-- An iteration environment whose list GET raises a connection error,
used as witness input. -/
def failEnv : IterEnv := ⟨.error .connectionError, []⟩

/-- An iteration environment whose list succeeds with one resource, used
against a zero-capacity queue to drive the put into queue.Full. -/
def fullEnv : IterEnv :=
  ⟨.ok ⟨200, Json.obj [("items", Json.arr [Json.obj []])]⟩, []⟩

/-- An iteration environment whose list succeeds with no resources and
whose first watch stream ends cleanly, followed by a second stream
attempt: drives _watch_resource around its inner while loop. -/
def cexEnv : IterEnv :=
  ⟨.ok ⟨200, Json.obj [("items", Json.arr [])]⟩,
   [.stream 200 [] none, .connectFail .connectionError]⟩

/-- Helper: a put against a queue with free space appends at the back. -/
theorem EventQueue.put_ok (q : EventQueue) (e : Event)
    (h : q.items.length < q.cap) :
    q.put e = .ok { q with items := q.items ++ [e] } := by
  simp [EventQueue.put, h]

/-- Helper: a successful put appends exactly the given event. -/
theorem EventQueue.put_items (q q' : EventQueue) (e : Event)
    (h : q.put e = .ok q') : q'.items = q.items ++ [e] := by
  unfold EventQueue.put at h
  split at h
  · cases h; rfl
  · simp at h

/-- Helper: enqueueing a batch that fits entirely within the queue's
remaining capacity appends the whole batch and raises nothing. -/
theorem enqueue_all_of_room (es : List Event) : ∀ q : EventQueue,
    q.items.length + es.length ≤ q.cap →
    enqueue_all q es = ({ cap := q.cap, items := q.items ++ es }, none) := by
  induction es with
  | nil => intro q _; simp [enqueue_all]
  | cons e es ih =>
    intro q h
    have hlt : q.items.length < q.cap := by
      simp at h
      omega
    rw [enqueue_all, EventQueue.put_ok q e hlt]
    show enqueue_all { q with items := q.items ++ [e] } es =
      ({ cap := q.cap, items := q.items ++ e :: es }, none)
    rw [ih _ (by simp only [List.length_cons] at h; simp; omega)]
    simp

/-- Claim C1: for every successful list call made during a resync, the
watch session enqueues exactly one event per resource in the list's
items, and every such event carries EventKind TYPE_MODIFIED, never
TYPE_ADDED, with no dependence on previously seen state. -/
theorem sync_resources_modified_per_item (resource_type : String)
    (resp : ListResponse) (q : EventQueue) (resources : List Json)
    (hst : resp.status_code = 200)
    (hitems : resp.body.getItem "items" = .ok (.arr resources))
    (hroom : q.items.length + resources.length ≤ q.cap) :
    sync_resources resource_type resp q =
      ({ cap := q.cap,
         items := q.items ++ resources.map
           (fun r => (Json.str TYPE_MODIFIED, Json.str resource_type, r)) },
       .ok (((resp.body.dictGet "metadata").getD
              (Json.obj [])).dictGet "resourceVersion"))
    ∧ Json.str TYPE_MODIFIED ≠ Json.str TYPE_ADDED := by
  constructor
  · have hroom' : q.items.length + (resources.map
        (fun r => ((Json.str TYPE_MODIFIED, Json.str resource_type, r) : Event))).length
          ≤ q.cap := by simpa using hroom
    simp [sync_resources, hst, hitems, enqueue_all_of_room _ q hroom']
  · intro hEq
    injection hEq with hEq'
    exact absurd hEq' (by decide)

/-- Witness for C1 at a one-resource list response against a queue with
one free slot. -/
theorem sync_resources_modified_per_item_witness :
    sync_resources "Pod" ⟨200, Json.obj [("items", Json.arr [Json.obj []])]⟩
        ⟨1, []⟩ =
      ({ cap := 1, items := [(Json.str TYPE_MODIFIED, Json.str "Pod", Json.obj [])] },
       .ok none)
    ∧ Json.str TYPE_MODIFIED ≠ Json.str TYPE_ADDED :=
  sync_resources_modified_per_item "Pod"
    ⟨200, Json.obj [("items", Json.arr [Json.obj []])]⟩ ⟨1, []⟩
    [Json.obj []] rfl rfl (by decide)

/-- Claim C7: an event whose (resource_type, event_type) pair has no
registered handler makes the dispatcher log a warning and drop the event
without invoking anything, and the loop continues with the remaining
events; the case is never surfaced as an error. -/
theorem no_handler_event_dropped (reg : Registry) (et rt res nm : Json)
    (rest : List Event)
    (hname : nameOf res = .ok nm)
    (hlook : get_handler reg rt et = .error .keyError) :
    read_updates reg ((et, rt, res) :: rest) =
      (match read_updates reg rest with
       | .error e => .error e
       | .ok l => .ok (StepResult.processed .noHandler :: l)) := by
  simp [read_updates, read_step, process_update, hname, hlook]

/-- Witness for C7: a Pod event against a registry holding only a
Namespace handler is dropped and the loop result stays non-fatal. -/
theorem no_handler_event_dropped_witness :
    read_updates [((Json.str "Namespace", Json.str "ADDED"), handlerOk)]
        [(Json.str "ADDED", Json.str "Pod",
          Json.obj [("metadata", Json.obj [("name", Json.str "a")])])] =
      .ok [StepResult.processed .noHandler] :=
  (no_handler_event_dropped
    [((Json.str "Namespace", Json.str "ADDED"), handlerOk)]
    (Json.str "ADDED") (Json.str "Pod")
    (Json.obj [("metadata", Json.obj [("name", Json.str "a")])])
    (Json.str "a") [] rfl rfl).trans rfl

/-- Claim C6: an event whose resource is missing a required identity
field (resource["metadata"]["name"] raises KeyError) is caught by the
dispatcher's own KeyError clause, logged with the payload, dropped, and
the loop continues with the remaining events. -/
theorem malformed_event_isolated (reg : Registry) (et rt res : Json)
    (rest : List Event)
    (hname : nameOf res = .error .keyError) :
    read_updates reg ((et, rt, res) :: rest) =
      (match read_updates reg rest with
       | .error e => .error e
       | .ok l => .ok (StepResult.invalidUpdate :: l)) := by
  simp [read_updates, read_step, process_update, hname]

/-- Witness for C6: a resource with no metadata.name is dropped and a
following well-formed event is still processed. -/
theorem malformed_event_isolated_witness :
    read_updates []
      [(Json.str "ADDED", Json.str "Pod", Json.obj []),
       (Json.str "ADDED", Json.str "Pod",
        Json.obj [("metadata", Json.obj [("name", Json.str "b")])])] =
      .ok [StepResult.invalidUpdate, StepResult.processed .noHandler] :=
  (malformed_event_isolated [] (Json.str "ADDED") (Json.str "Pod")
    (Json.obj [])
    [(Json.str "ADDED", Json.str "Pod",
      Json.obj [("metadata", Json.obj [("name", Json.str "b")])])]
    rfl).trans rfl

/-- Claim C5: a handler that raises a data-shape error (KeyError) is
caught and logged with the offending resource serialized and the
dispatcher continues with subsequent events, while a handler that raises
any other exception makes that exception propagate out of the dispatcher
loop, which is fatal for the engine. -/
theorem handler_error_policy (reg : Registry) (et rt res nm : Json)
    (h : Handler) (rest : List Event)
    (hname : nameOf res = .ok nm)
    (hlook : get_handler reg rt et = .ok h) :
    (h res = .error .keyError →
      read_updates reg ((et, rt, res) :: rest) =
        (match read_updates reg rest with
         | .error e => .error e
         | .ok l => .ok (StepResult.processed .invalidResource :: l)))
    ∧ (∀ e : PyExc, e ≠ .keyError → h res = .error e →
        read_updates reg ((et, rt, res) :: rest) = .error e) := by
  constructor
  · intro hres
    simp [read_updates, read_step, process_update, hname, hlook, hres]
  · intro e hne hres
    cases e <;> simp_all [read_updates, read_step, process_update]

/-- Witness for C5: a KeyError-raising handler yields a caught, logged
outcome and a non-fatal loop result, while an otherwise-raising handler
makes the loop return that exception. -/
theorem handler_error_policy_witness :
    read_updates [((Json.str "Pod", Json.str "ADDED"), handlerRaisesKeyError)]
        [(Json.str "ADDED", Json.str "Pod",
          Json.obj [("metadata", Json.obj [("name", Json.str "a")])])] =
      .ok [StepResult.processed .invalidResource]
    ∧ read_updates [((Json.str "Pod", Json.str "ADDED"), handlerRaisesOther)]
        [(Json.str "ADDED", Json.str "Pod",
          Json.obj [("metadata", Json.obj [("name", Json.str "a")])])] =
      .error .otherExc :=
  ⟨((handler_error_policy
      [((Json.str "Pod", Json.str "ADDED"), handlerRaisesKeyError)]
      (Json.str "ADDED") (Json.str "Pod")
      (Json.obj [("metadata", Json.obj [("name", Json.str "a")])])
      (Json.str "a") handlerRaisesKeyError [] rfl rfl).1 rfl).trans rfl,
   (handler_error_policy
      [((Json.str "Pod", Json.str "ADDED"), handlerRaisesOther)]
      (Json.str "ADDED") (Json.str "Pod")
      (Json.obj [("metadata", Json.obj [("name", Json.str "a")])])
      (Json.str "a") handlerRaisesOther [] rfl rfl).2
      .otherExc (by decide) rfl⟩

/-- Helper: inversion of a successful process_line: the line carried a
non-error type and an object with a kind, exactly one update built from
the payload was appended to the queue, and the tracked cursor was set to
the object's embedded resourceVersion. -/
theorem process_line_ok_shape (resource_type : String) (line : Json)
    (st st' : WatchState)
    (h : process_line resource_type line st = (st', none)) :
    ∃ t obj k v, line.getItem "type" = .ok t ∧
      line.getItem "object" = .ok obj ∧
      obj.getItem "kind" = .ok k ∧ versionOf obj = .ok v ∧
      st'.q.items = st.q.items ++ [(t, k, obj)] ∧ st'.version = some v := by
  unfold process_line at h
  cases hty : line.getItem "type" with
  | error e => simp [hty] at h
  | ok t =>
  cases hb : Json.beq t (Json.str TYPE_ERROR) with
  | true => simp [hty, hb] at h
  | false =>
  cases hobj : line.getItem "object" with
  | error e => simp [hty, hb, hobj] at h
  | ok obj =>
  cases hk : obj.getItem "kind" with
  | error e => simp [hty, hb, hobj, hk] at h
  | ok k =>
  cases hn : nameOf obj with
  | error e => simp [hty, hb, hobj, hk, hn] at h
  | ok nm =>
  cases hput : st.q.put (t, k, obj) with
  | error e => simp [hty, hb, hobj, hk, hn, hput] at h
  | ok q1 =>
  cases hv : versionOf obj with
  | error e => simp [hty, hb, hobj, hk, hn, hput, hv] at h
  | ok v =>
    simp only [hty, hb, hobj, hk, hn, hput, hv, Bool.false_eq_true,
      if_false, Prod.mk.injEq, and_true] at h
    refine ⟨t, obj, k, v, rfl, rfl, hk, hv, ?_, ?_⟩
    · rw [← h]
      exact EventQueue.put_items st.q q1 (t, k, obj) hput
    · rw [← h]

/-- Helper: along a successful run of the line loop, either nothing was
processed or the tracked cursor equals the resourceVersion embedded in
the resource of the last enqueued update. -/
theorem run_lines_cursor_aux (resource_type : String) (lines : List Json) :
    ∀ st st' : WatchState,
      run_lines resource_type st lines = (st', none) →
      st' = st ∨ ∃ pre e v, st'.q.items = pre ++ [e] ∧
        versionOf e.2.2 = .ok v ∧ st'.version = some v := by
  induction lines with
  | nil =>
    intro st st' h
    rw [run_lines] at h
    cases h
    exact Or.inl rfl
  | cons l ls ih =>
    intro st st' h
    rw [run_lines] at h
    cases hpl : process_line resource_type l st with
    | mk st1 exc =>
      rw [hpl] at h
      cases exc with
      | some e => simp at h
      | none =>
        rcases ih st1 st' h with heq | hex
        · obtain ⟨t, obj, k, v, _, _, _, hv, hitems, hver⟩ :=
            process_line_ok_shape resource_type l st st1 hpl
          subst heq
          exact Or.inr ⟨st.q.items, (t, k, obj), v, hitems, hv, hver⟩
        · exact Or.inr hex

/-- Claim C8: during a successful watch stream, after each enqueue the
VersionCursor tracked by the session equals the cursor embedded in the
resource of the most recently enqueued event: whenever the line loop
completes without raising and at least one event was enqueued, the
tracked resource_version is the resourceVersion of the last update put on
the queue. -/
theorem cursor_tracks_last_enqueued (resource_type : String)
    (lines : List Json) (st st' : WatchState)
    (h : run_lines resource_type st lines = (st', none))
    (hgrow : st.q.items.length < st'.q.items.length) :
    ∃ pre e v, st'.q.items = pre ++ [e] ∧ versionOf e.2.2 = .ok v ∧
      st'.version = some v := by
  rcases run_lines_cursor_aux resource_type lines st st' h with heq | hex
  · rw [heq] at hgrow
    exact absurd hgrow (Nat.lt_irrefl _)
  · exact hex

/-- Witness for C8: one well-formed line enqueues one update and leaves
the cursor at that update's resourceVersion. -/
theorem cursor_tracks_last_enqueued_witness :
    ∃ pre e v, ([wEvent] : List Event) = pre ++ [e] ∧
      versionOf e.2.2 = .ok v ∧
      (some (Json.str "5") : Option Json) = some v :=
  cursor_tracks_last_enqueued "Pod" [wLine] ⟨none, ⟨4, []⟩⟩
    ⟨some (Json.str "5"), ⟨4, [wEvent]⟩⟩ rfl (by decide)

/-- Claim C10: for every successfully processed watch-stream line, the
resource_type stored in the enqueued update is the parsed payload's
object kind, not the ResourceType the session was started with: the
enqueued tuple is (type, kind, object), and the session's resource_type
parameter has no effect on process_line at all, so the dispatcher's
handler lookup for this update is keyed on the payload-declared kind. -/
theorem event_kind_from_payload (resource_type : String) (line : Json)
    (st st' : WatchState)
    (h : process_line resource_type line st = (st', none)) :
    (∃ t obj k, line.getItem "type" = .ok t ∧
        line.getItem "object" = .ok obj ∧ obj.getItem "kind" = .ok k ∧
        st'.q.items = st.q.items ++ [(t, k, obj)])
    ∧ ∀ rt2 : String,
        process_line rt2 line st = process_line resource_type line st := by
  constructor
  · obtain ⟨t, obj, k, v, h1, h2, h3, _, h5, _⟩ :=
      process_line_ok_shape resource_type line st st' h
    exact ⟨t, obj, k, h1, h2, h3, h5⟩
  · intro rt2
    rfl

/-- Witness for C10: the line wLine declares kind Pod inside its payload;
processing it under any session type enqueues the payload-keyed tuple. -/
theorem event_kind_from_payload_witness :
    (∃ t obj k, wLine.getItem "type" = .ok t ∧
        wLine.getItem "object" = .ok obj ∧ obj.getItem "kind" = .ok k ∧
        (EventQueue.mk 4 [wEvent]).items = ([] : List Event) ++ [(t, k, obj)])
    ∧ ∀ rt2 : String,
        process_line rt2 wLine ⟨none, ⟨4, []⟩⟩ =
          process_line "NetworkPolicy" wLine ⟨none, ⟨4, []⟩⟩ :=
  event_kind_from_payload "NetworkPolicy" wLine ⟨none, ⟨4, []⟩⟩
    ⟨some (Json.str "5"), ⟨4, [wEvent]⟩⟩ rfl

/-- Helper: every exception class reaching _manage_resource's except
chain is caught (the chain ends in a catch-all except Exception). -/
theorem manage_catches_true (e : PyExc) : manage_catches e = true := by
  cases e <;> rfl

/-- Helper: an iteration of _manage_resource always begins with the full
list call of _sync_resources, before any watch stream is opened. -/
theorem manage_iteration_starts_with_list (resource_type : String)
    (env : IterEnv) (q : EventQueue) :
    (manage_iteration resource_type env q).1.head? =
      some (Action.listCall none) := by
  unfold manage_iteration
  cases hl : env.listResult with
  | error e => simp
  | ok resp =>
    cases hs : sync_resources resource_type resp q with
    | mk q' r =>
      cases r with
      | error e => simp [hs]
      | ok ver =>
        cases hw : watch_resource resource_type ver q' env.attempts with
        | mk tr p => simp [hs, hw]

/-- Helper: the head of a list append is the head of a non-empty left
part. -/
theorem head_append_of_head {α : Type} (l l' : List α) (a : α)
    (h : l.head? = some a) : (l ++ l').head? = some a := by
  cases l with
  | nil => simp at h
  | cons x xs =>
    simp only [List.head?_cons, Option.some.injEq] at h
    simp [h]

/-- Helper: when an iteration of _manage_resource ends in a caught
exception, the loop continues with the next iteration, whose trace
starts with a fresh full list call. -/
theorem manage_resume_shape (resource_type : String) (q q' : EventQueue)
    (env env2 : IterEnv) (rest : List IterEnv) (tr : List Action)
    (e : PyExc)
    (h : manage_iteration resource_type env q = (tr, q', some e)) :
    (manage_resource resource_type q (env :: env2 :: rest)).1 =
      tr ++ (manage_resource resource_type q' (env2 :: rest)).1
    ∧ (manage_resource resource_type q' (env2 :: rest)).1.head? =
        some (Action.listCall none) := by
  constructor
  · rw [manage_resource, h]
    simp [manage_catches_true]
  · have h2 := manage_iteration_starts_with_list resource_type env2 q'
    rw [manage_resource]
    cases hmi : manage_iteration resource_type env2 q' with
    | mk tr2 p =>
      rw [hmi] at h2
      cases p with
      | mk q2 exc2 =>
        cases exc2 with
        | none => simpa using h2
        | some e2 =>
          simp only [manage_catches_true, if_true]
          exact head_append_of_head _ _ _ (by simpa using h2)

/-- Counterexample to C3 as stated: with a list that succeeds and a
watch stream that ends cleanly (its line iterator is exhausted without an
exception), _watch_resource's inner while loop opens a second watch
stream directly, with no intervening list call: the call trace holds two
adjacent watch openings. -/
theorem watch_reopen_without_list_cex :
    (manage_resource "Pod" ⟨4, []⟩ [cexEnv]).1 =
      [Action.listCall none, Action.watchOpen none, Action.watchOpen none]
    ∧ relists_between_watches
        (manage_resource "Pod" ⟨4, []⟩ [cexEnv]).1 = false :=
  ⟨rfl, rfl⟩

/-- Claim C3 (amended): whenever a watch stream terminates by raising an
exception, the exception is caught in _manage_resource and the session
issues a fresh full list call before the next watch stream is opened;
however, a watch stream whose line iterator ends cleanly is re-opened by
_watch_resource's inner loop directly, without an intervening list. -/
theorem list_precedes_watch_after_failure (resource_type : String)
    (q q' : EventQueue) (env env2 : IterEnv) (rest : List IterEnv)
    (tr : List Action) (e : PyExc)
    (h : manage_iteration resource_type env q = (tr, q', some e)) :
    (manage_resource resource_type q (env :: env2 :: rest)).1 =
      tr ++ (manage_resource resource_type q' (env2 :: rest)).1
    ∧ (manage_resource resource_type q' (env2 :: rest)).1.head? =
        some (Action.listCall none) :=
  manage_resume_shape resource_type q q' env env2 rest tr e h

/-- Witness for the amended C3: a failed iteration is followed by an
iteration whose first action is the full list call. -/
theorem list_precedes_watch_after_failure_witness :
    (manage_resource "Pod" ⟨4, []⟩ [failEnv, failEnv]).1 =
      [Action.listCall none] ++ (manage_resource "Pod" ⟨4, []⟩ [failEnv]).1
    ∧ (manage_resource "Pod" ⟨4, []⟩ [failEnv]).1.head? =
        some (Action.listCall none) :=
  list_precedes_watch_after_failure "Pod" ⟨4, []⟩ ⟨4, []⟩ failEnv failEnv []
    [Action.listCall none] .connectionError rfl

/-- Claim C4: a queue put that exceeds its timeout raises queue.Full,
which the originating watch session's except chain catches (the process
does not crash); the session then restarts its outer loop, whose next
iteration performs the full list call of _sync_resources with the version
cursor discarded (the list GET carries no cursor, i.e. cursor None). -/
theorem queue_full_recovery (resource_type : String) (q q' : EventQueue)
    (env env2 : IterEnv) (rest : List IterEnv) (tr : List Action)
    (h : manage_iteration resource_type env q = (tr, q', some .queueFull)) :
    manage_catches .queueFull = true
    ∧ (manage_resource resource_type q (env :: env2 :: rest)).1 =
        tr ++ (manage_resource resource_type q' (env2 :: rest)).1
    ∧ (manage_resource resource_type q' (env2 :: rest)).1.head? =
        some (Action.listCall none) :=
  ⟨rfl,
   (manage_resume_shape resource_type q q' env env2 rest tr .queueFull h).1,
   (manage_resume_shape resource_type q q' env env2 rest tr .queueFull h).2⟩

/-- Witness for C4: against a zero-capacity queue the resync put raises
queue.Full; the worker survives and the next iteration starts with a
cursor-free list call. -/
theorem queue_full_recovery_witness :
    manage_catches .queueFull = true
    ∧ (manage_resource "Pod" ⟨0, []⟩ [fullEnv, failEnv]).1 =
        [Action.listCall none] ++ (manage_resource "Pod" ⟨0, []⟩ [failEnv]).1
    ∧ (manage_resource "Pod" ⟨0, []⟩ [failEnv]).1.head? =
        some (Action.listCall none) :=
  queue_full_recovery "Pod" ⟨0, []⟩ ⟨0, []⟩ fullEnv failEnv []
    [Action.listCall none] rfl

/-- Claim C9: on any poll of the leadership-watching loop where this
instance's identity no longer matches the reported leader, or where the
poll raises any exception, the loop calls os._exit(1): the process
terminates at that poll with a non-zero code, regardless of any further
polls, with no transition back to a not-leader state. -/
theorem leadership_loss_exits (ourName : Option String)
    (pollResult : Except PyExc Json)
    (h : is_leader ourName pollResult = .ok false ∨
         ∃ e, is_leader ourName pollResult = .error e) :
    watch_leadership_step ourName pollResult = .exitProcess 1
    ∧ (∀ ps, watch_leadership ourName (pollResult :: ps) = .exited 1)
    ∧ (1 : Nat) ≠ 0 := by
  have hstep : watch_leadership_step ourName pollResult = .exitProcess 1 := by
    rcases h with h | ⟨e, h⟩ <;> simp [watch_leadership_step, h]
  exact ⟨hstep, fun ps => by simp [watch_leadership, hstep], by decide⟩

/-- Witness for C9: a poll reporting a different leader makes the very
next step exit with code 1, whatever polls would have followed. -/
theorem leadership_loss_exits_witness :
    watch_leadership_step (some "host-a")
        (.ok (Json.obj [("name", Json.str "host-b")])) = .exitProcess 1
    ∧ (∀ ps, watch_leadership (some "host-a")
        ((.ok (Json.obj [("name", Json.str "host-b")])) :: ps) = .exited 1)
    ∧ (1 : Nat) ≠ 0 :=
  leadership_loss_exits (some "host-a")
    (.ok (Json.obj [("name", Json.str "host-b")])) (Or.inl rfl)

/-- Helper: along any execution of the engine's step relation, handler
start and end labels alternate correctly with respect to the dispatcher's
phase in the starting state. -/
theorem dexec_serialized (s s' : DispatchSystem) (tr : List DLabel)
    (h : DExec s tr s') :
    serializedFrom (phaseBusy s.phase) tr = true := by
  induction h with
  | nil => rfl
  | cons s s' s'' l ls hstep hrest ih =>
    cases hstep with
    | produce i ev pend hpr =>
      simpa [serializedFrom] using ih
    | dequeueStart ev q' hp hq =>
      rw [serializedFrom, hp]
      simp only [phaseBusy, Bool.not_false, Bool.true_and]
      simpa [phaseBusy] using ih
    | handlerFinish ev hp =>
      rw [serializedFrom, hp]
      simp only [phaseBusy, Bool.true_and]
      simpa [phaseBusy] using ih

/-- Claim C2: in every interleaved execution of the producer threads and
the single dispatcher thread that starts with the dispatcher blocked in
queue.get, the emitted label trace is serialized: a handler invocation
begins only when no handler invocation is in progress and ends before the
next one begins, so the handler for queued event N has returned or raised
before the handler for event N+1 starts and no two handler invocations
ever run concurrently, under any schedule of any number of producers. -/
theorem dispatcher_never_overlaps (s s' : DispatchSystem)
    (tr : List DLabel) (hexec : DExec s tr s')
    (hstart : s.phase = .reading) :
    serializedFrom false tr = true := by
  have h := dexec_serialized s s' tr hexec
  rw [hstart] at h
  simpa [phaseBusy] using h

/-- Witness for C2: two producer threads enqueue concurrently; the
dispatcher's two handler invocations are strictly serialized. -/
theorem dispatcher_never_overlaps_witness :
    serializedFrom false
      [DLabel.enqueue 0 wEvent, DLabel.enqueue 1 wEvent,
       DLabel.handlerStart wEvent, DLabel.handlerEnd wEvent,
       DLabel.handlerStart wEvent, DLabel.handlerEnd wEvent] = true := by
  have hx : DExec ⟨[[wEvent], [wEvent]], [], .reading⟩
      [DLabel.enqueue 0 wEvent, DLabel.enqueue 1 wEvent,
       DLabel.handlerStart wEvent, DLabel.handlerEnd wEvent,
       DLabel.handlerStart wEvent, DLabel.handlerEnd wEvent]
      ⟨[[], []], [], .reading⟩ :=
    DExec.cons _ _ _ _ _ (DStep.produce _ 0 wEvent [] rfl)
      (DExec.cons _ _ _ _ _ (DStep.produce _ 1 wEvent [] rfl)
      (DExec.cons _ _ _ _ _ (DStep.dequeueStart _ wEvent [wEvent] rfl rfl)
      (DExec.cons _ _ _ _ _ (DStep.handlerFinish _ wEvent rfl)
      (DExec.cons _ _ _ _ _ (DStep.dequeueStart _ wEvent [] rfl rfl)
      (DExec.cons _ _ _ _ _ (DStep.handlerFinish _ wEvent rfl)
      (DExec.nil ⟨[[], []], [], .reading⟩))))))
  exact dispatcher_never_overlaps _ _ _ hx rfl

end AciController
